import Mathlib

/-!
Verification of the alcazar Husker layer (`src/alcazar/husker.py`, with the
divergent package revision under `src/alcazar/husker/`).  Python classes are
embedded as a tagged-variant type `Husker`; raw Python values that flow into
the dispatch function `husk` are embedded as `PyVal`; exceptions are embedded
as `Except PyError`.
-/

/-- Exception kinds raised by the husker layer (messages, which are pure
diagnostics, are not modelled).  `typeError` and `valueError` stand for the
Python builtins `TypeError` and `ValueError`. -/
inductive PyError where
  | mismatch
  | notUnique
  | multipleSpecMatch
  | attributeNotFound
  | lookupError
  | valueError
  | typeError
deriving DecidableEq

/-- An HTML/XML tree node as surfaced by lxml: a tag, a comment flag
(`isinstance(node, ET._Comment)` in the source; a comment's `tag` is a
function object and compares unequal to every string, so models must give
comments a tag that is not an HTML tag name), the `text` before the first
child, the children, and the `tail` text after the closing tag.  `Option.none`
for `text`/`tail` is lxml's `None`. -/
inductive HElem where
  | mk (tag : String) (isComment : Bool) (headText : Option String)
       (children : List HElem) (tailText : Option String) : HElem

/-- A decoded JSON-like value as wrapped by `JmesPathHusker`; `null` is
Python's `None`, which is also what `jmespath.search` returns when the path
matches nothing.  JSON numbers are modelled as integers; no claim computes
with non-integral numbers. -/
inductive Json where
  | null
  | str (s : String)
  | int (i : Int)
  | bool (b : Bool)
  | arr (items : List Json)
  | obj (fields : List (String × Json))

/-- Scalar values wrapped by the package revision's `ScalarHusker`
(ints and bools; floats are not representable in this embedding and no claim
exercises them). -/
inductive PyScalar where
  | int (i : Int)
  | bool (b : Bool)

mutual

/-- The husker hierarchy as a closed sum: `null` is `NullHusker`, `text` is
`TextHusker`, `element` is `ElementHusker` (with its `is_full_document`
flag), `jmes` is `JmesPathHusker`, `scalar` is the package revision's
`ScalarHusker`, and `list` is `ListHusker`.  A `ListHusker`'s underlying
value is a plain Python list and may hold arbitrary values, hence
`List PyVal`; every selection built inside the repository stores huskers. -/
inductive Husker where
  | null : Husker
  | text (s : String) : Husker
  | element (e : HElem) (isFullDocument : Bool) : Husker
  | jmes (j : Json) : Husker
  | scalar (v : PyScalar) : Husker
  | list (items : List PyVal) : Husker

/-- Raw Python values that reach the dispatch function `husk`: text, ints,
bools, undecoded bytes, lxml elements, sequences (tuples/lists/generators
are merged into one constructor), `None`, and already-wrapped huskers. -/
inductive PyVal where
  | str (s : String) : PyVal
  | int (i : Int) : PyVal
  | bool (b : Bool) : PyVal
  | bytes (bs : List Nat) : PyVal
  | elem (e : HElem) : PyVal
  | pylist (items : List PyVal) : PyVal
  | none : PyVal
  | husker (h : Husker) : PyVal

end

/-- `ListHusker(...)` built from a list of huskers, the shape produced by
every selection in the repository. -/
def Husker.ofList (hs : List Husker) : Husker :=
  Husker.list (hs.map PyVal.husker)

/-- The underlying list of a `ListHusker`, empty for every other variant. -/
def Husker.listElems : Husker → List PyVal
  | .list items => items
  | _ => []

/-- Python truthiness of a husker (`__bool__`).  The base class returns
`self._value is not None`; `TextHusker` and `ListHusker` override it with
the wrapped value's own truthiness. -/
def Husker.toBool : Husker → Bool
  | .null => false
  | .text s => !(s == "")
  | .element _ _ => true
  | .jmes _ => true
  | .scalar _ => true
  | .list items => !items.isEmpty

/-- `SelectorMixin.one`: exactly one match required.  The mixin derives every
cardinality operator from `selection`, so the operators are embedded as
functions of the selection result list. -/
def SelectorMixin.one : List Husker → Except PyError Husker
  | [] => Except.error PyError.mismatch
  | [x] => Except.ok x
  | _ => Except.error PyError.notUnique

/-- `SelectorMixin.some`: zero matches collapse to the Null husker, two or
more raise. -/
def SelectorMixin.some : List Husker → Except PyError Husker
  | [] => Except.ok Husker.null
  | [x] => Except.ok x
  | _ => Except.error PyError.notUnique

/-- `SelectorMixin.first`: at least one match required, returns `selected[0]`. -/
def SelectorMixin.first : List Husker → Except PyError Husker
  | [] => Except.error PyError.mismatch
  | x :: _ => Except.ok x

/-- `SelectorMixin.last`: at least one match required, returns `selected[-1]`. -/
def SelectorMixin.last (sel : List Husker) : Except PyError Husker :=
  match sel.getLast? with
  | Option.none => Except.error PyError.mismatch
  | Option.some x => Except.ok x

/-- `SelectorMixin.any`: zero matches collapse to the Null husker, otherwise
the first match is returned. -/
def SelectorMixin.any : List Husker → Except PyError Husker
  | [] => Except.ok Husker.null
  | x :: _ => Except.ok x

/-- `SelectorMixin.all`: `if not selected` (list truthiness) raises, otherwise
the whole selection is returned. -/
def SelectorMixin.all : List Husker → Except PyError Husker
  | [] => Except.error PyError.mismatch
  | sel => Except.ok (Husker.ofList sel)

/-- C1: for a selection of length 0, `one`, `first`, `last` and `all` raise
Mismatch while `some` and `any` return the Null husker; for length 1 all of
`one`, `some`, `first`, `last`, `any` return the single element; for length
greater than 1, `one` and `some` raise NotUnique, `first` returns the first
element, `last` the last, and `all` the full sequence. -/
theorem c1_cardinality_contract (sel : List Husker) :
    (sel.length = 0 →
      SelectorMixin.one sel = Except.error PyError.mismatch ∧
      SelectorMixin.first sel = Except.error PyError.mismatch ∧
      SelectorMixin.last sel = Except.error PyError.mismatch ∧
      SelectorMixin.all sel = Except.error PyError.mismatch ∧
      SelectorMixin.some sel = Except.ok Husker.null ∧
      SelectorMixin.any sel = Except.ok Husker.null) ∧
    (∀ x : Husker, sel = [x] →
      SelectorMixin.one sel = Except.ok x ∧
      SelectorMixin.some sel = Except.ok x ∧
      SelectorMixin.first sel = Except.ok x ∧
      SelectorMixin.last sel = Except.ok x ∧
      SelectorMixin.any sel = Except.ok x) ∧
    (1 < sel.length →
      SelectorMixin.one sel = Except.error PyError.notUnique ∧
      SelectorMixin.some sel = Except.error PyError.notUnique ∧
      (∀ (x : Husker) (rest : List Husker), sel = x :: rest →
        SelectorMixin.first sel = Except.ok x) ∧
      (∀ x : Husker, sel.getLast? = Option.some x →
        SelectorMixin.last sel = Except.ok x) ∧
      SelectorMixin.all sel = Except.ok (Husker.ofList sel)) := by
  refine ⟨?_, ?_, ?_⟩
  · intro h
    match sel, h with
    | [], _ =>
      exact ⟨rfl, rfl, rfl, rfl, rfl, rfl⟩
  · intro x hx
    subst hx
    exact ⟨rfl, rfl, rfl, rfl, rfl⟩
  · intro h
    match sel, h with
    | x :: y :: rest, _ =>
      refine ⟨rfl, rfl, ?_, ?_, rfl⟩
      · intro x' rest' heq
        cases heq
        rfl
      · intro x' hlast
        simp [SelectorMixin.last, hlast]

/-- Witness for C1 at concrete selections of each length. -/
theorem c1_cardinality_contract_witness :
    SelectorMixin.one [Husker.text "a"] = Except.ok (Husker.text "a") ∧
    SelectorMixin.some [Husker.text "a"] = Except.ok (Husker.text "a") ∧
    SelectorMixin.first [Husker.text "a"] = Except.ok (Husker.text "a") ∧
    SelectorMixin.last [Husker.text "a"] = Except.ok (Husker.text "a") ∧
    SelectorMixin.any [Husker.text "a"] = Except.ok (Husker.text "a") := by
  exact (c1_cardinality_contract [Husker.text "a"]).2.1 (Husker.text "a") rfl

/-- Conversion applied by `Husker.decimal`, namely `Decimal(self.str)` from
the Python standard library: applied to `None` it raises `TypeError`;
applied to a numeral string it returns the decimal value, modelled here as
the numeral string itself since no claim exercises a successful conversion. -/
def pyDecimal : Option String → Except PyError String
  | Option.none => Except.error PyError.typeError
  | Option.some s => Except.ok s

/-- `NullHusker.selection` (`_returns_null`, ignores its arguments). -/
def NullHusker.selection : Husker := Husker.null

/-- `NullHusker.one` (`_returns_null`). -/
def NullHusker.one : Husker := Husker.null

/-- `NullHusker.some` (`_returns_null`). -/
def NullHusker.some : Husker := Husker.null

/-- `NullHusker.first` (`_returns_null`). -/
def NullHusker.first : Husker := Husker.null

/-- `NullHusker.last` (`_returns_null`). -/
def NullHusker.last : Husker := Husker.null

/-- `NullHusker.any` (`_returns_null`). -/
def NullHusker.any : Husker := Husker.null

/-- `NullHusker.all` (`_returns_null`). -/
def NullHusker.all : Husker := Husker.null

/-- `NullHusker.one_of` (`_returns_null`). -/
def NullHusker.one_of : Husker := Husker.null

/-- `NullHusker.some_of` (`_returns_null`). -/
def NullHusker.some_of : Husker := Husker.null

/-- `NullHusker.first_of` (`_returns_null`). -/
def NullHusker.first_of : Husker := Husker.null

/-- `NullHusker.any_of` (`_returns_null`). -/
def NullHusker.any_of : Husker := Husker.null

/-- `NullHusker.all_of` (`_returns_null`). -/
def NullHusker.all_of : Husker := Husker.null

/-- `NullHusker.selection_of` (`_returns_null`). -/
def NullHusker.selection_of : Husker := Husker.null

/-- `NullHusker.text` property (`_returns_null`). -/
def NullHusker.text : Husker := Husker.null

/-- `NullHusker.multiline` property (`_returns_null`). -/
def NullHusker.multiline : Husker := Husker.null

/-- `NullHusker.join` (`_returns_null`). -/
def NullHusker.join : Husker := Husker.null

/-- `NullHusker.list` (`_returns_null`). -/
def NullHusker.list : Husker := Husker.null

/-- `NullHusker.sub` (`_returns_null`). -/
def NullHusker.sub : Husker := Husker.null

/-- `NullHusker.lower` (`_returns_null`). -/
def NullHusker.lower : Husker := Husker.null

/-- `NullHusker.upper` (`_returns_null`). -/
def NullHusker.upper : Husker := Husker.null

/-- `NullHusker.__getitem__` (`_returns_null`): item indexing on Null. -/
def NullHusker.getitem : Husker := Husker.null

/-- `NullHusker.attrib` (`_returns_null`). -/
def NullHusker.attrib : Husker := Husker.null

/-- `NullHusker.json` (`_returns_null`). -/
def NullHusker.json : Husker := Husker.null

/-- `NullHusker.map` (`_returns_null`). -/
def NullHusker.map : Husker := Husker.null

/-- `NullHusker.filter` (`_returns_null`). -/
def NullHusker.filter : Husker := Husker.null

/-- `NullHusker.str` property (`_returns_none`). -/
def NullHusker.str : Option String := Option.none

/-- `NullHusker.int` property (`_returns_none`). -/
def NullHusker.int : Option Int := Option.none

/-- `NullHusker.float` property (`_returns_none`); float values themselves
are not modelled, only presence versus `None`. -/
def NullHusker.float : Option Unit := Option.none

/-- `NullHusker.date` (`_returns_none`); date values are not modelled, only
presence versus `None`. -/
def NullHusker.date : Option Unit := Option.none

/-- `NullHusker.datetime` (`_returns_none`); datetime values are not
modelled, only presence versus `None`. -/
def NullHusker.datetime : Option Unit := Option.none

/-- `NullHusker.lookup` (`_returns_none`). -/
def NullHusker.lookup : Option PyVal := Option.none

/-- `NullHusker.map_raw` (`_returns_none`). -/
def NullHusker.map_raw : Option PyVal := Option.none

/-- `NullHusker.decimal`: the one scalar coercion `NullHusker` does NOT
override, so the base `Husker.decimal` runs `Decimal(self.str)` with
`self.str` being the Null husker's `None`. -/
def NullHusker.decimal : Except PyError String := pyDecimal NullHusker.str

/-- C2: every operation of the shared capability set invoked on the Null
husker returns the Null husker (or `None` for the scalar-returning ones) —
except `decimal`, which `NullHusker` fails to override, so it evaluates
`Decimal(None)` and raises `TypeError` instead of returning `None`. -/
theorem c2_null_absorbs_all_but_decimal :
    NullHusker.selection = Husker.null ∧
    NullHusker.one = Husker.null ∧
    NullHusker.some = Husker.null ∧
    NullHusker.first = Husker.null ∧
    NullHusker.last = Husker.null ∧
    NullHusker.any = Husker.null ∧
    NullHusker.all = Husker.null ∧
    NullHusker.one_of = Husker.null ∧
    NullHusker.some_of = Husker.null ∧
    NullHusker.first_of = Husker.null ∧
    NullHusker.any_of = Husker.null ∧
    NullHusker.all_of = Husker.null ∧
    NullHusker.selection_of = Husker.null ∧
    NullHusker.text = Husker.null ∧
    NullHusker.multiline = Husker.null ∧
    NullHusker.join = Husker.null ∧
    NullHusker.list = Husker.null ∧
    NullHusker.sub = Husker.null ∧
    NullHusker.lower = Husker.null ∧
    NullHusker.upper = Husker.null ∧
    NullHusker.getitem = Husker.null ∧
    NullHusker.attrib = Husker.null ∧
    NullHusker.json = Husker.null ∧
    NullHusker.map = Husker.null ∧
    NullHusker.filter = Husker.null ∧
    NullHusker.str = Option.none ∧
    NullHusker.int = Option.none ∧
    NullHusker.float = Option.none ∧
    NullHusker.date = Option.none ∧
    NullHusker.datetime = Option.none ∧
    NullHusker.lookup = Option.none ∧
    NullHusker.decimal = Except.error PyError.typeError := by
  repeat constructor

/-- `NullHusker.__eq__`: `lambda self, other: other is None`.  The compared
value is any Python object, embedded as `Option PyVal` with `Option.none`
standing for Python `None`. -/
def NullHusker.eq (other : Option PyVal) : Bool := other.isNone

/-- `NullHusker.__ne__`: `lambda self, other: other is not None`. -/
def NullHusker.ne (other : Option PyVal) : Bool := !other.isNone

/-- `NullHusker.__lt__`: constantly `False`. -/
def NullHusker.lt (_other : Option PyVal) : Bool := false

/-- `NullHusker.__le__`: constantly `False`. -/
def NullHusker.le (_other : Option PyVal) : Bool := false

/-- `NullHusker.__gt__`: constantly `False`. -/
def NullHusker.gt (_other : Option PyVal) : Bool := false

/-- `NullHusker.__ge__`: constantly `False`. -/
def NullHusker.ge (_other : Option PyVal) : Bool := false

/-- C10: the Null husker compares equal exactly to `None`, unequal exactly to
everything else; in particular it is not equal to itself, and every order
comparison on it returns `False`. -/
theorem c10_null_comparisons :
    (∀ v : Option PyVal, NullHusker.eq v = true ↔ v = Option.none) ∧
    (∀ v : Option PyVal, NullHusker.ne v = true ↔ v ≠ Option.none) ∧
    NullHusker.eq (Option.some (PyVal.husker Husker.null)) = false ∧
    (∀ v : Option PyVal,
      NullHusker.lt v = false ∧ NullHusker.le v = false ∧
      NullHusker.gt v = false ∧ NullHusker.ge v = false) := by
  refine ⟨?_, ?_, rfl, ?_⟩
  · intro v
    cases v <;> simp [NullHusker.eq]
  · intro v
    cases v <;> simp [NullHusker.ne]
  · intro v
    exact ⟨rfl, rfl, rfl, rfl⟩

/-- Witness for C10 at concrete compared values. -/
theorem c10_null_comparisons_witness :
    NullHusker.eq Option.none = true ∧
    NullHusker.ne (Option.some (PyVal.int 3)) = true ∧
    NullHusker.lt (Option.some (PyVal.int 3)) = false := by
  refine ⟨?_, ?_, ?_⟩
  · exact (c10_null_comparisons.1 Option.none).mpr rfl
  · exact (c10_null_comparisons.2.1 (Option.some (PyVal.int 3))).mpr (by simp)
  · exact (c10_null_comparisons.2.2.2 (Option.some (PyVal.int 3))).1

/-- C4 counterexample: the claim says a Text husker wrapping the empty string
is truthy, but `TextHusker.__bool__` returns `bool(self._value)`, and
`bool("")` is `False`. -/
theorem c4_counterexample : Husker.toBool (Husker.text "") = false := rfl

/-- C4 (amended): a Text husker wrapping the empty string is falsy
(`TextHusker` overrides truthiness to the wrapped string's own truthiness,
unlike the base class's holds-a-value rule); the Null husker is falsy; a
List husker wrapping an empty sequence is falsy. -/
theorem c4_truthiness_amended :
    Husker.toBool (Husker.text "") = false ∧
    Husker.toBool Husker.null = false ∧
    Husker.toBool (Husker.list []) = false := ⟨rfl, rfl, rfl⟩

/-- The dispatch function `husk` of the single-module revision
(`src/alcazar/husker.py`): text becomes a Text husker; an object with a
callable `xpath` attribute (an lxml element; no husker class defines one)
becomes an Element husker; tuples, lists and generators are wrapped as a
List husker holding the raw items; `None` becomes the Null husker; anything
else — ints, bools, undecoded bytes, and notably already-wrapped huskers —
raises `ValueError`. -/
def husk (value : PyVal) : Except PyError Husker :=
  match value with
  | PyVal.str s => Except.ok (Husker.text s)
  | PyVal.elem e => Except.ok (Husker.element e false)
  | PyVal.pylist items => Except.ok (Husker.list items)
  | PyVal.none => Except.ok Husker.null
  | PyVal.int _ => Except.error PyError.valueError
  | PyVal.bool _ => Except.error PyError.valueError
  | PyVal.bytes _ => Except.error PyError.valueError
  | PyVal.husker _ => Except.error PyError.valueError

/-- The dispatch function `husk` of the package revision
(`src/alcazar/husker/__init__.py`): an already-wrapped husker is returned
unchanged; text becomes a Text husker; ints and bools become the package
revision's Scalar husker (the `ScalarHusker` class itself is imported from
`husker/base.py`, which does not define it — the constructor is modelled
from the spec's dispatch rule 3); elements, sequences and `None` as in the
other revision; bytes raise `ValueError`. -/
def HuskerPackage.husk (value : PyVal) : Except PyError Husker :=
  match value with
  | PyVal.husker h => Except.ok h
  | PyVal.str s => Except.ok (Husker.text s)
  | PyVal.int i => Except.ok (Husker.scalar (PyScalar.int i))
  | PyVal.bool b => Except.ok (Husker.scalar (PyScalar.bool b))
  | PyVal.elem e => Except.ok (Husker.element e false)
  | PyVal.pylist items => Except.ok (Husker.list items)
  | PyVal.none => Except.ok Husker.null
  | PyVal.bytes _ => Except.error PyError.valueError

/-- Result of evaluating `h == h` in Python on one and the same husker
object `h`: `NullHusker.__eq__` returns `other is None`, hence `False`;
every other husker forwards `__eq__` to its wrapped value, whose `__eq__`
on a husker argument returns `NotImplemented` both ways, and Python then
falls back to identity, which holds for the same object. -/
def pyEqSame : Husker → Bool
  | Husker.null => false
  | _ => true

/-- C3 counterexample: `None` is accepted by the package revision's `husk`
and `husk(husk(None))` returns the Null husker unchanged, yet
`husk(husk(None)) == husk(None)` evaluates to `False`, because the Null
husker's `__eq__` holds only against `None` — so `husk(husk(x)) == husk(x)`
fails at `x = None`. -/
theorem c3_counterexample :
    HuskerPackage.husk PyVal.none = Except.ok Husker.null ∧
    HuskerPackage.husk (PyVal.husker Husker.null) = Except.ok Husker.null ∧
    pyEqSame Husker.null = false := ⟨rfl, rfl, rfl⟩

/-- C3 (amended): the package revision's `husk` returns an already-wrapped
husker unchanged (the identical node), so dispatching twice yields the same
node as dispatching once; the equality-phrased round trip additionally
holds whenever that node is not the Null husker, whose `__eq__` accepts
only `None`.  The single-module revision's `husk` has no such pass-through
case at all: it raises `ValueError` on every already-wrapped husker. -/
theorem c3_idempotence_amended :
    (∀ h : Husker, HuskerPackage.husk (PyVal.husker h) = Except.ok h) ∧
    (∀ (x : PyVal) (h : Husker), HuskerPackage.husk x = Except.ok h →
      HuskerPackage.husk (PyVal.husker h) = Except.ok h ∧
      (h ≠ Husker.null → pyEqSame h = true)) ∧
    (∀ h : Husker, husk (PyVal.husker h) = Except.error PyError.valueError) := by
  refine ⟨fun h => rfl, ?_, fun h => rfl⟩
  intro x h _
  refine ⟨rfl, ?_⟩
  intro hne
  cases h with
  | null => exact absurd rfl hne
  | text s => rfl
  | element e f => rfl
  | jmes j => rfl
  | scalar v => rfl
  | list items => rfl

/-- Witness for C3 (amended) at `x` a plain string. -/
theorem c3_idempotence_amended_witness :
    HuskerPackage.husk (PyVal.husker (Husker.text "a")) = Except.ok (Husker.text "a") ∧
    pyEqSame (Husker.text "a") = true ∧
    husk (PyVal.husker (Husker.text "a")) = Except.error PyError.valueError := by
  have h2 := c3_idempotence_amended.2.1 (PyVal.str "a") (Husker.text "a") rfl
  exact ⟨h2.1, h2.2 (by intro hcon; cases hcon), c3_idempotence_amended.2.2 (Husker.text "a")⟩

/-- Loop body of `SelectorMixin.some_of`: iterates over the specs, running
`self.some(spec)` for each (a spec is embedded as an abstract key `α` and
the node's `selection` primitive as a function `α → List Husker`, since the
mixin derives everything from `selection`); a truthy result when a match
was already recorded raises `HuskerMultipleSpecMatch`, otherwise it is
recorded; a falsy result (the Null husker, or a falsy husker) is skipped. -/
def SelectorMixin.some_of_loop {α : Type} (selection : α → List Husker) :
    List α → Option Husker → Except PyError (Option Husker)
  | [], acc => Except.ok acc
  | s :: rest, acc =>
    match SelectorMixin.some (selection s) with
    | Except.error e => Except.error e
    | Except.ok sel =>
      if sel.toBool then
        match acc with
        | Option.none => SelectorMixin.some_of_loop selection rest (Option.some sel)
        | Option.some _ => Except.error PyError.multipleSpecMatch
      else SelectorMixin.some_of_loop selection rest acc

/-- `SelectorMixin.some_of`: returns the recorded match, or `None` when no
spec matched. -/
def SelectorMixin.some_of {α : Type} (selection : α → List Husker)
    (specs : List α) : Except PyError (Option Husker) :=
  SelectorMixin.some_of_loop selection specs Option.none

/-- `SelectorMixin.one_of`: `some_of`, then `if not match: raise
HuskerMismatch` — `match` is either `None` or a husker, tested for
truthiness. -/
def SelectorMixin.one_of {α : Type} (selection : α → List Husker)
    (specs : List α) : Except PyError Husker :=
  match SelectorMixin.some_of selection specs with
  | Except.error e => Except.error e
  | Except.ok Option.none => Except.error PyError.mismatch
  | Except.ok (Option.some h) =>
    if h.toBool then Except.ok h else Except.error PyError.mismatch

/-- `SelectorMixin.first_of`: returns the first spec whose `any` result is
truthy, raising `HuskerMismatch` when none is. -/
def SelectorMixin.first_of {α : Type} (selection : α → List Husker) :
    List α → Except PyError Husker
  | [] => Except.error PyError.mismatch
  | s :: rest =>
    match SelectorMixin.any (selection s) with
    | Except.error e => Except.error e
    | Except.ok sel =>
      if sel.toBool then Except.ok sel
      else SelectorMixin.first_of selection rest

/-- `SelectorMixin.any_of`: like `first_of` but collapsing to the Null
husker when no spec matches. -/
def SelectorMixin.any_of {α : Type} (selection : α → List Husker) :
    List α → Except PyError Husker
  | [] => Except.ok Husker.null
  | s :: rest =>
    match SelectorMixin.any (selection s) with
    | Except.error e => Except.error e
    | Except.ok sel =>
      if sel.toBool then Except.ok sel
      else SelectorMixin.any_of selection rest

/-- Selection function for the C5 counterexample: spec 0 matches twice,
spec 1 matches once. -/
def c5Selection : Nat → List Husker
  | 0 => [Husker.text "a", Husker.text "b"]
  | _ => [Husker.text "c"]

/-- C5 counterexample: both specs independently match (each selection is
non-empty), yet `one_of`/`some_of` raise `HuskerNotUnique` — not
`HuskerMultipleSpecMatch` — because the first spec's two matches make the
inner `some` fail before mutual exclusivity is ever examined. -/
theorem c5_counterexample :
    (c5Selection 0).length = 2 ∧
    (c5Selection 1).length = 1 ∧
    SelectorMixin.one_of c5Selection [0, 1] = Except.error PyError.notUnique ∧
    SelectorMixin.some_of c5Selection [0, 1] = Except.error PyError.notUnique ∧
    PyError.notUnique ≠ PyError.multipleSpecMatch := by
  refine ⟨rfl, rfl, rfl, rfl, by decide⟩

/-- C5 (amended): `one_of` and `some_of` raise `HuskerMultipleSpecMatch`
whenever both specs independently match with a selection of length exactly
one whose single element is truthy (a spec matching more than once raises
`HuskerNotUnique` instead, and a spec whose sole match is falsy is treated
as not matching); `first_of` and `any_of` return the first spec's match
without checking any of the remaining specs. -/
theorem c5_mutual_exclusivity_amended {α : Type} (selection : α → List Husker)
    (sA sB : α) (x y : Husker)
    (hA : selection sA = [x]) (hxt : x.toBool = true)
    (hB : selection sB = [y]) (hyt : y.toBool = true) :
    SelectorMixin.one_of selection [sA, sB] = Except.error PyError.multipleSpecMatch ∧
    SelectorMixin.some_of selection [sA, sB] = Except.error PyError.multipleSpecMatch ∧
    (∀ rest : List α, SelectorMixin.first_of selection (sA :: rest) = Except.ok x) ∧
    (∀ rest : List α, SelectorMixin.any_of selection (sA :: rest) = Except.ok x) := by
  have hsome : SelectorMixin.some_of selection [sA, sB] =
      Except.error PyError.multipleSpecMatch := by
    simp only [SelectorMixin.some_of, SelectorMixin.some_of_loop, hA, hB,
      SelectorMixin.some, hxt, hyt, if_true]
  refine ⟨?_, hsome, ?_, ?_⟩
  · simp only [SelectorMixin.one_of, hsome]
  · intro rest
    simp only [SelectorMixin.first_of, hA, SelectorMixin.any, hxt, if_true]
  · intro rest
    simp only [SelectorMixin.any_of, hA, SelectorMixin.any, hxt, if_true]

/-- Witness for C5 (amended) with two singleton-matching specs. -/
theorem c5_mutual_exclusivity_amended_witness :
    SelectorMixin.one_of (fun n : Nat => if n = 0 then [Husker.text "a"] else [Husker.text "b"])
      [0, 1] = Except.error PyError.multipleSpecMatch ∧
    SelectorMixin.first_of (fun n : Nat => if n = 0 then [Husker.text "a"] else [Husker.text "b"])
      [0, 1] = Except.ok (Husker.text "a") := by
  have h := c5_mutual_exclusivity_amended
    (fun n : Nat => if n = 0 then [Husker.text "a"] else [Husker.text "b"])
    0 1 (Husker.text "a") (Husker.text "b") rfl rfl rfl rfl
  exact ⟨h.1, h.2.2.1 [1]⟩

/-- One regex match as produced by `re.finditer`: the whole matched text
(`m.group(0)`) and the texts of the numbered capturing groups
(`m.group(i)`, `i ≥ 1`), with `Option.none` for a group that did not
participate in the match (Python returns `None` for it). -/
structure RMatch where
  whole : String
  groups : List (Option String)

/-- `m.group(n)`: the whole match for `n = 0`, otherwise the n-th capturing
group. -/
def RMatch.group (m : RMatch) (n : Nat) : Option String :=
  if n = 0 then Option.some m.whole else m.groups.getD (n - 1) Option.none

/-- `husk` specialised to a regex group value, which is either captured text
or `None`: `husk` maps text to a Text husker and `None` to the Null husker
(this specialisation never reaches `husk`'s `ValueError` branch). -/
def huskGroup : Option String → Husker
  | Option.some s => Husker.text s
  | Option.none => Husker.null

/-- `TextHusker.selection`: the regex engine itself (`re`) is external, so
the embedding takes the compiled pattern's group count (`regex.groups`) and
the list of match objects found in the husker's value.  With fewer than 2 groups
each match contributes `husk(m.group(regex.groups))`; otherwise each match
contributes a `ListHusker` of its husked groups. -/
def TextHusker.selection (ngroups : Nat) (ms : List RMatch) : Husker :=
  if ngroups < 2 then
    Husker.ofList (ms.map (fun m => huskGroup (m.group ngroups)))
  else
    Husker.ofList (ms.map (fun m => Husker.ofList (m.groups.map huskGroup)))

/-- A list item that is a Text husker. -/
def PyVal.isTextHusker : PyVal → Bool
  | PyVal.husker (Husker.text _) => true
  | _ => false

/-- Length of a list item that is itself a List husker, 0 otherwise. -/
def PyVal.innerLen : PyVal → Nat
  | PyVal.husker (Husker.list items) => items.length
  | _ => 0

/-- C6 counterexample: the pattern `a(b)?` has one capturing group and finds
one match in the text `a`, with the optional group not participating —
`m.group(1)` is `None`, and `husk(None)` is the Null husker, so the
selection's single element is not a Text husker as the claim requires. -/
theorem c6_counterexample :
    TextHusker.selection 1 [RMatch.mk "a" [Option.none]] =
      Husker.ofList [Husker.null] ∧
    (Husker.ofList [Husker.null]).listElems.all PyVal.isTextHusker = false :=
  ⟨rfl, rfl⟩

/-- C6 (amended): a text selection yields one element per match; with 0
groups each element is a Text husker holding the whole match; with 1 group
each element is the husked group — a Text husker whenever the group
participated in the match, the Null husker otherwise; with 2 or more groups
each element is an inner sequence whose length equals the pattern's group
count. -/
theorem c6_group_count_amended (ngroups : Nat) (ms : List RMatch)
    (hwf : ∀ m ∈ ms, m.groups.length = ngroups) :
    (TextHusker.selection ngroups ms).listElems.length = ms.length ∧
    (ngroups = 0 → TextHusker.selection ngroups ms =
      Husker.ofList (ms.map (fun m => Husker.text m.whole))) ∧
    (ngroups = 1 → (∀ m ∈ ms, (m.group 1).isSome = true) →
      (TextHusker.selection ngroups ms).listElems.all PyVal.isTextHusker = true) ∧
    (2 ≤ ngroups →
      (TextHusker.selection ngroups ms).listElems.all
        (fun x => PyVal.innerLen x == ngroups) = true) := by
  refine ⟨?_, ?_, ?_, ?_⟩
  · by_cases h : ngroups < 2 <;>
      simp [TextHusker.selection, h, Husker.ofList, Husker.listElems]
  · intro h0
    subst h0
    simp only [TextHusker.selection, if_pos (by omega : (0 : Nat) < 2)]
    have : (fun m : RMatch => huskGroup (m.group 0)) =
        (fun m : RMatch => Husker.text m.whole) := by
      funext m
      simp [RMatch.group, huskGroup]
    rw [this]
  · intro h1 hpart
    subst h1
    simp only [TextHusker.selection, if_pos (by omega : (1 : Nat) < 2),
      Husker.ofList, Husker.listElems, List.map_map, List.all_eq_true]
    intro x hx
    simp only [List.mem_map] at hx
    obtain ⟨m, hm, hxm⟩ := hx
    have hsome := hpart m hm
    cases hg : m.group 1 with
    | none => rw [hg] at hsome; cases hsome
    | some s =>
      subst hxm
      simp [Function.comp, hg, huskGroup, PyVal.isTextHusker]
  · intro h2
    simp only [TextHusker.selection, if_neg (by omega : ¬ ngroups < 2),
      Husker.ofList, Husker.listElems, List.map_map, List.all_eq_true]
    intro x hx
    simp only [List.mem_map] at hx
    obtain ⟨m, hm, hxm⟩ := hx
    subst hxm
    simp [Function.comp, Husker.ofList, PyVal.innerLen, hwf m hm]

/-- Witness for C6 (amended): the pattern `(x)(y)` (two groups) on the text
`xy`, one match with both groups participating. -/
theorem c6_group_count_amended_witness :
    (TextHusker.selection 2 [RMatch.mk "xy" [Option.some "x", Option.some "y"]]).listElems.length = 1 ∧
    (TextHusker.selection 2 [RMatch.mk "xy" [Option.some "x", Option.some "y"]]).listElems.all
      (fun x => PyVal.innerLen x == 2) = true := by
  have h := c6_group_count_amended 2 [RMatch.mk "xy" [Option.some "x", Option.some "y"]]
    (by intro m hm; simp at hm; subst hm; rfl)
  exact ⟨h.1, h.2.2.2 (by omega)⟩


/-- A character of the regex class `\w` (ASCII range; the claims exercise no
non-ASCII path). -/
def isWordChar (c : Char) : Bool :=
  (c ≥ 'a' && c ≤ 'z') || (c ≥ 'A' && c ≤ 'Z') || (c ≥ '0' && c ≤ '9') || c == '_'

/-- The XPath-vs-CSS classification of `ElementHusker._compile_xpath`:
`re.search` of the pattern alternation dot-followed-by-slash at the start,
or a slash anywhere, or an at-sign anywhere, or the whole path one nonempty
run of word characters. -/
def isXpathPath (path : String) : Bool :=
  (match path.toList with
   | '.' :: '/' :: _ => true
   | _ => false)
  || path.toList.contains '/'
  || path.toList.contains '@'
  || (!path.toList.isEmpty && path.toList.all isWordChar)

/-- Group 1 of the substitution pattern of `_compile_xpath` — an optional
leading dot — and the remaining characters. -/
def xpathLeadDot (cs : List Char) : List Char × List Char :=
  match cs with
  | c :: rest => if c = '.' then (['.'], rest) else ([], cs)
  | [] => ([], cs)

/-- Group 2 of the substitution pattern of `_compile_xpath` — up to two
leading slashes, matched greedily — and the remaining characters. -/
def xpathLeadSlashes (cs : List Char) : List Char × List Char :=
  match cs with
  | c :: rest =>
    if c = '/' then
      match rest with
      | c2 :: rest2 => if c2 = '/' then (['/', '/'], rest2) else (['/'], rest)
      | [] => (['/'], rest)
    else ([], cs)
  | [] => ([], cs)

/-- The substitution `re.sub` applies to an XPath-classified path in
`_compile_xpath`: the captured leading dot is kept only for the full
document and replaced by a forced `.` otherwise, and an empty slash group
is widened to `//`. -/
def xpathSubChars (isFullDocument : Bool) (cs : List Char) : List Char :=
  let m1rest := xpathLeadDot cs
  let m2rest := xpathLeadSlashes m1rest.2
  (if isFullDocument then m1rest.1 else ['.']) ++
  (if m2rest.1.isEmpty then ['/', '/'] else m2rest.1) ++ m2rest.2

/-- `ElementHusker._compile_xpath`: an XPath-classified path goes through the
prefix substitution; any other path is handed to the external CSS-to-XPath
translator (`lxml.cssselect`), which is outside this embedding, hence
`Option.none`. -/
def ElementHusker.compile_xpath (isFullDocument : Bool) (path : String) :
    Option String :=
  if isXpathPath path then
    Option.some (String.mk (xpathSubChars isFullDocument path.toList))
  else
    Option.none

/-- C8 counterexample: on a non-root element the spec `/x` is not widened to
a descendant search — the code turns it into `./x`, which searches children
only, not `//x` or `.//x` as the claim states. -/
theorem c8_counterexample :
    ElementHusker.compile_xpath false "/x" = Option.some "./x" ∧
    ("./x" : String) ≠ "//x" ∧
    ("./x" : String) ≠ ".//x" := by
  refine ⟨by decide, by decide, by decide⟩

/-- C8 (amended): on a non-root element every XPath-classified path is
forced relative by prefixing `.`; a spec starting with a single slash such
as `/x` becomes `./x`, searching children only; it is a bare word-character
tag such as `x` that is widened to `.//x`, searching all descendants; on
the full-document element a `/`-prefixed spec stays exactly as written. -/
theorem c8_root_vs_relative_amended :
    (∀ path : String, isXpathPath path = true →
      ∃ t : List Char,
        ElementHusker.compile_xpath false path = Option.some (String.mk ('.' :: t))) ∧
    (∀ cs : List Char, cs.head? ≠ Option.some '/' →
      ElementHusker.compile_xpath false (String.mk ('/' :: cs)) =
        Option.some (String.mk ('.' :: '/' :: cs))) ∧
    (∀ path : String, path.toList ≠ [] → path.toList.all isWordChar = true →
      ElementHusker.compile_xpath false path =
        Option.some (String.mk ('.' :: '/' :: '/' :: path.toList))) ∧
    (∀ cs : List Char,
      ElementHusker.compile_xpath true (String.mk ('/' :: cs)) =
        Option.some (String.mk ('/' :: cs))) := by
  refine ⟨?_, ?_, ?_, ?_⟩
  · intro path hx
    simp only [ElementHusker.compile_xpath, hx, if_true]
    exact ⟨_, rfl⟩
  · intro cs hhead
    have hx : isXpathPath (String.mk ('/' :: cs)) = true := by
      simp [isXpathPath, String.toList]
    simp only [ElementHusker.compile_xpath, hx, if_true, String.toList]
    cases cs with
    | nil => rfl
    | cons c2 rest2 =>
      have hc2 : ¬ (c2 = '/') := by
        intro hcon
        exact hhead (by rw [hcon]; rfl)
      simp [xpathSubChars, xpathLeadDot, xpathLeadSlashes, hc2]
  · intro path hne hall
    have hx : isXpathPath path = true := by
      simp only [isXpathPath, Bool.or_eq_true]
      right
      simp only [Bool.and_eq_true, Bool.not_eq_true']
      exact ⟨by simpa [List.isEmpty_iff] using hne, hall⟩
    simp only [ElementHusker.compile_xpath, hx, if_true]
    cases hcs : path.toList with
    | nil => exact absurd hcs hne
    | cons c rest =>
      have hcw : isWordChar c = true := by
        have := List.all_eq_true.mp hall c
        rw [hcs] at this
        exact this (List.mem_cons_self c rest)
      have hc1 : ¬ (c = '.') := by
        intro hcon; rw [hcon] at hcw; exact absurd hcw (by decide)
      have hc2 : ¬ (c = '/') := by
        intro hcon; rw [hcon] at hcw; exact absurd hcw (by decide)
      simp [xpathSubChars, xpathLeadDot, xpathLeadSlashes, hc1, hc2]
  · intro cs
    have hx : isXpathPath (String.mk ('/' :: cs)) = true := by
      simp [isXpathPath, String.toList]
    simp only [ElementHusker.compile_xpath, hx, if_true, String.toList]
    cases cs with
    | nil => rfl
    | cons c2 rest2 =>
      by_cases hc2 : c2 = '/'
      · subst hc2
        simp [xpathSubChars, xpathLeadDot, xpathLeadSlashes]
      · simp [xpathSubChars, xpathLeadDot, xpathLeadSlashes, hc2]

/-- Witness for C8 (amended) at the specs `/x`, `x` and the root spec `/x`. -/
theorem c8_root_vs_relative_amended_witness :
    ElementHusker.compile_xpath false (String.mk ['/', 'x']) =
      Option.some (String.mk ['.', '/', 'x']) ∧
    ElementHusker.compile_xpath false "x" =
      Option.some (String.mk ['.', '/', '/', 'x']) ∧
    ElementHusker.compile_xpath true (String.mk ['/', 'x']) =
      Option.some (String.mk ['/', 'x']) := by
  refine ⟨?_, ?_, ?_⟩
  · exact c8_root_vs_relative_amended.2.1 ['x'] (by decide)
  · have h := c8_root_vs_relative_amended.2.2.1 "x" (by decide) (by decide)
    exact h
  · exact c8_root_vs_relative_amended.2.2.2 ['x']

/-- `JmesPathHusker._child`: `None` (the `Json.null` embedding of Python
`None`) becomes the Null husker, a plain string becomes a Text husker, and
every other value recurses into a JmesPath husker. -/
def JmesPathHusker.child : Json → Husker
  | Json.null => Husker.null
  | Json.str s => Husker.text s
  | v => Husker.jmes v

/-- Iteration underlying `map(self._child, selected)` when the path contains
an indexing bracket: an array result yields its items; `None` is not
iterable and raises `TypeError`.  Other shapes (Python would iterate dict
keys or string characters) are not exercised by any claim and are likewise
modelled as `TypeError`. -/
def jmesSelectedList : Json → Except PyError (List Json)
  | Json.arr items => Except.ok items
  | _ => Except.error PyError.typeError

/-- `JmesPathHusker.selection`: the jmespath engine is external, so the
embedding takes the path together with the value `jmespath.search` returned
for it.  A path without an indexing bracket wraps the single result as a
one-element list; either way the results are husked through `_child` into a
`ListHusker`. -/
def JmesPathHusker.selection (path : String) (searched : Json) :
    Except PyError Husker :=
  if path.toList.contains '[' then
    match jmesSelectedList searched with
    | Except.ok items => Except.ok (Husker.ofList (items.map JmesPathHusker.child))
    | Except.error e => Except.error e
  else
    Except.ok (Husker.ofList ([searched].map JmesPathHusker.child))

/-- C9: for a bracket-free path the selection is a one-element sequence
holding `_child` of the search result — the Null husker when the path
matched nothing (`None`), a Text husker for a plain string, and a JmesPath
husker for every other value; consequently `one` on such a selection
returns the Null husker for a match-less path instead of raising
Mismatch. -/
theorem c9_bracket_free_selection (path : String) (j : Json)
    (hb : path.toList.contains '[' = false) :
    JmesPathHusker.selection path j =
      Except.ok (Husker.ofList [JmesPathHusker.child j]) ∧
    (Husker.ofList [JmesPathHusker.child j]).listElems.length = 1 ∧
    (j = Json.null → JmesPathHusker.child j = Husker.null ∧
      SelectorMixin.one [JmesPathHusker.child j] = Except.ok Husker.null) ∧
    (∀ s : String, j = Json.str s → JmesPathHusker.child j = Husker.text s) ∧
    (j ≠ Json.null → (∀ s : String, j ≠ Json.str s) →
      JmesPathHusker.child j = Husker.jmes j) := by
  refine ⟨?_, rfl, ?_, ?_, ?_⟩
  · simp only [JmesPathHusker.selection, hb]
    rfl
  · intro hj
    subst hj
    exact ⟨rfl, rfl⟩
  · intro s hj
    subst hj
    rfl
  · intro hnull hstr
    cases j with
    | null => exact absurd rfl hnull
    | str s => exact absurd rfl (hstr s)
    | int i => rfl
    | bool b => rfl
    | arr items => rfl
    | obj fields => rfl

/-- Witness for C9 at the bracket-free path `a.b` with a match-less search
result. -/
theorem c9_bracket_free_selection_witness :
    JmesPathHusker.selection "a.b" Json.null =
      Except.ok (Husker.ofList [Husker.null]) ∧
    SelectorMixin.one [JmesPathHusker.child Json.null] = Except.ok Husker.null := by
  have h := c9_bracket_free_selection "a.b" Json.null (by decide)
  have hc := (h.2.2.1 rfl).1
  exact ⟨by rw [h.1, hc], (h.2.2.1 rfl).2⟩

/-- Python whitespace (the regex class of one-character blanks matched by
the collapsing substitution in `_multiline_text`): space, tab, newline,
carriage return, vertical tab, form feed. -/
def isPySpace (c : Char) : Bool :=
  c == ' ' || c == '\t' || c == '\n' || c == '\r' || c == '\x0b' || c == '\x0c'

/-- Whether a whitespace run contains two adjacent newlines (the substring
test of the collapsing substitution's replacement function). -/
def hasDoubleNewline : List Char → Bool
  | '\n' :: '\n' :: _ => true
  | _ :: rest => hasDoubleNewline rest
  | [] => false

/-- Replacement of one whitespace run by the substitution in
`_multiline_text`: a paragraph break when the run contains one, else a
newline when the run contains one, else a single space. -/
def emitRun (run : List Char) : List Char :=
  if run.isEmpty then []
  else if hasDoubleNewline run then ['\n', '\n']
  else if run.contains '\n' then ['\n']
  else [' ']

/-- Worker for the whitespace-collapsing substitution: accumulates the
current whitespace run (in reverse) and emits its replacement at each
boundary. -/
def collapseAux (run : List Char) : List Char → List Char
  | [] => emitRun run.reverse
  | c :: rest =>
    if isPySpace c then collapseAux (c :: run) rest
    else emitRun run.reverse ++ c :: collapseAux [] rest

/-- The collapsing substitution of `_multiline_text`: every maximal run of
whitespace becomes a paragraph break, a newline, or a space. -/
def collapseWs (s : String) : String := String.mk (collapseAux [] s.toList)

/-- Python `str.strip()`: removes leading and trailing whitespace. -/
def pyStrip (s : String) : String :=
  String.mk (((s.toList.dropWhile isPySpace).reverse.dropWhile isPySpace).reverse)

/-- Worker splitting a character list into its whitespace-separated words. -/
def splitWords (acc : List Char) : List Char → List String
  | [] => if acc.isEmpty then [] else [String.mk acc.reverse]
  | c :: rest =>
    if isPySpace c then
      if acc.isEmpty then splitWords [] rest
      else String.mk acc.reverse :: splitWords [] rest
    else splitWords (c :: acc) rest

/-- Modelled from the spec: `normalize_spaces` lives in
`alcazar/utils/text.py`, which is not present under src; the spec describes
it as collapsing consecutive whitespace to one space with the edges
trimmed. -/
def normalize_spaces (s : String) : String :=
  String.intercalate " " (splitWords [] s.toList)

/-- `ElementHusker._PARAGRAPH_BREAKING_TAGS`. -/
def PARAGRAPH_BREAKING_TAGS : List String :=
  ["address", "applet", "blockquote", "body", "center", "cite", "dd", "div",
   "dl", "dt", "fieldset", "form", "frame", "frameset", "h1", "h2", "h3",
   "h4", "h5", "h6", "head", "hr", "iframe", "li", "noscript", "object",
   "ol", "p", "table", "tbody", "td", "textarea", "tfoot", "th", "thead",
   "title", "tr", "ul"]

/-- `ElementHusker._NON_TEXT_TAGS`. -/
def NON_TEXT_TAGS : List String := ["script", "style"]

mutual

/-- The recursive generator `visit` inside `ElementHusker._multiline_text`:
entering a `pre` switches off normalization for the node's text, children
and tail; `br` yields a newline, a paragraph-breaking tag yields a
paragraph break before and after; text and children are skipped for
`script`/`style` and for comment nodes; nonempty `text` and `tail` are
yielded, normalized unless inside `pre`. -/
def ElementHusker.visit (insidePre : Bool) : HElem → List String
  | HElem.mk tag isComment headText children tailText =>
    let ip := insidePre || tag == "pre"
    (if tag == "br" then ["\n"]
     else if PARAGRAPH_BREAKING_TAGS.contains tag then ["\n\n"]
     else []) ++
    (if !NON_TEXT_TAGS.contains tag && !isComment then
      (match headText with
       | Option.some t => if t == "" then [] else [if ip then t else normalize_spaces t]
       | Option.none => []) ++
      ElementHusker.visitChildren ip children
     else []) ++
    (if PARAGRAPH_BREAKING_TAGS.contains tag then ["\n\n"] else []) ++
    (match tailText with
     | Option.some t => if t == "" then [] else [if ip then t else normalize_spaces t]
     | Option.none => [])

/-- Iteration of `visit` over a node's children. -/
def ElementHusker.visitChildren (insidePre : Bool) : List HElem → List String
  | [] => []
  | c :: rest =>
    ElementHusker.visit insidePre c ++ ElementHusker.visitChildren insidePre rest

end

/-- `ElementHusker._multiline_text`: join the visit's pieces, collapse every
whitespace run, and strip the edges. -/
def ElementHusker.multiline_text (root : HElem) : String :=
  pyStrip (collapseWs (String.join (ElementHusker.visit false root)))

/-- The element content of the C7 example: `<div>A<br>B</div><div>C</div>`
wrapped in a body element. -/
def c7Root : HElem :=
  HElem.mk "body" false Option.none
    [HElem.mk "div" false (Option.some "A")
       [HElem.mk "br" false Option.none [] (Option.some "B")] Option.none,
     HElem.mk "div" false (Option.some "C") [] Option.none]
    Option.none

/-- C7: multiline extraction of `<div>A<br>B</div><div>C</div>` yields
exactly the text A, newline, B, blank line, C — a single newline for the
`br`, a paragraph break between the two divs, and no leading or trailing
blank lines. -/
theorem c7_multiline_example :
    ElementHusker.multiline_text c7Root = "A\nB\n\nC" := by
  rfl
